import Mathlib

/-!
Verification of the Mobile Device Usage dashboard
(`MobileDeviceUsageAndUseBehaviourDahboard.py`) against its
natural-language specification.

The script is a linear pandas/streamlit program: load a CSV into a table,
derive an `Age_Group` column with `pd.cut`, filter the table by an age
range and three categorical selectors (each with an `'All'` wildcard),
compute summary metrics and grouped means over the filtered view, and
offer the filtered view as a CSV download.  We embed the table as a list
of records, numeric columns as `Int`/`ℚ`, and each of the script's data
transformations as an executable Lean function mirroring the source.
-/

namespace MobileDash

/-- A raw input row of `user_behavior_dataset.csv`: the ten columns the
dashboard reads, before the derived `Age_Group` column is attached. -/
structure RawRow where
  age : Int
  gender : String
  operatingSystem : String
  deviceModel : String
  screenOnTime : ℚ
  appUsageTime : ℚ
  batteryDrain : ℚ
  dataUsage : ℚ
  numberOfApps : Int
  userBehaviorClass : Int
deriving DecidableEq, Repr

/-- A loaded row: a raw row plus the derived `Age_Group` column.
`none` models pandas `NaN` for ages falling in no bucket. -/
structure Row extends RawRow where
  ageGroup : Option String
deriving DecidableEq, Repr

/-- `pd.cut(df['Age'], bins=[17, 25, 35, 45, 59],
labels=['18-25', '26-35', '36-45', '46-59'])` on an integer age: each bin
is left-exclusive and right-inclusive, ages outside (17, 59] get `NaN`. -/
def ageGroupOf (a : Int) : Option String :=
  if 17 < a ∧ a ≤ 25 then some "18-25"
  else if 25 < a ∧ a ≤ 35 then some "26-35"
  else if 35 < a ∧ a ≤ 45 then some "36-45"
  else if 45 < a ∧ a ≤ 59 then some "46-59"
  else none

/-- `load_data` (lines 43-51): read the CSV rows and attach the derived
`Age_Group` column.  The file-missing branch is modelled in
`run_dashboard` below, where the rows are an `Option`. -/
def load_data (raws : List RawRow) : List Row :=
  raws.map (fun r => { toRawRow := r, ageGroup := ageGroupOf r.age })

/-- `filtered_df` (lines 86-98): first the inclusive age-range mask, then
one equality filter per categorical selector, each skipped when the
selector is the `'All'` sentinel. -/
def filtered_df (df : List Row) (ageLo ageHi : Int)
    (selGender selOs selDevice : String) : List Row :=
  let f1 := df.filter (fun r => decide (ageLo ≤ r.age ∧ r.age ≤ ageHi))
  let f2 := if selGender = "All" then f1
            else f1.filter (fun r => r.gender == selGender)
  let f3 := if selOs = "All" then f2
            else f2.filter (fun r => r.operatingSystem == selOs)
  if selDevice = "All" then f3
  else f3.filter (fun r => r.deviceModel == selDevice)

/-- The conjunctive row predicate the four filter widgets denote. -/
def rowPred (ageLo ageHi : Int) (selGender selOs selDevice : String)
    (r : Row) : Bool :=
  decide (ageLo ≤ r.age ∧ r.age ≤ ageHi) &&
  (selGender == "All" || r.gender == selGender) &&
  (selOs == "All" || r.operatingSystem == selOs) &&
  (selDevice == "All" || r.deviceModel == selDevice)

/-- One filter widget's constraint, as the dashboard sidebar offers them:
the age-range slider and the three `'All'`-defaulting select boxes. -/
inductive FilterConstraint where
  | ageRange : Int → Int → FilterConstraint
  | genderSel : String → FilterConstraint
  | osSel : String → FilterConstraint
  | deviceSel : String → FilterConstraint
deriving DecidableEq, Repr

/-- The row predicate a single widget constraint denotes (the `'All'`
sentinel means no constraint). -/
def constraintPred : FilterConstraint → Row → Bool
  | .ageRange lo hi, r => decide (lo ≤ r.age ∧ r.age ≤ hi)
  | .genderSel g, r => g == "All" || r.gender == g
  | .osSel o, r => o == "All" || r.operatingSystem == o
  | .deviceSel d, r => d == "All" || r.deviceModel == d

/-- Apply a list of widget constraints left to right, one filter pass
each, the way the script chains its masks. -/
def applyConstraints (cs : List FilterConstraint) (df : List Row) :
    List Row :=
  cs.foldl (fun t c => t.filter (constraintPred c)) df

/-- `heavy_users` (line 139): rows of the filtered view whose Screen On
Time is at least 8 hours/day. -/
def heavy_users (fd : List Row) : Nat :=
  (fd.filter (fun r => decide ((8 : ℚ) ≤ r.screenOnTime))).length

/-- `heavy_percent` (line 140): heavy rows over the filtered row count,
times 100. -/
def heavy_percent (fd : List Row) : ℚ :=
  ((heavy_users fd : ℚ) / (fd.length : ℚ)) * 100

/-- One CSV field of the export, abstracting the textual rendering
("modulo formatting"): an integer, a rational, a string, or the empty
field pandas writes for `NaN`. -/
inductive Cell where
  | intCell : Int → Cell
  | ratCell : ℚ → Cell
  | strCell : String → Cell
  | na : Cell
deriving DecidableEq, Repr

/-- The export schema: the ten source columns in their fixed order, with
the derived `Age_Group` column appended last, where `df['Age_Group'] = ...`
leaves it. -/
def csvHeader : List String :=
  ["Age", "Gender", "Operating System", "Device Model",
   "Screen On Time (hours/day)", "App Usage Time (min/day)",
   "Battery Drain (mAh/day)", "Data Usage (MB/day)",
   "Number of Apps Installed", "User Behavior Class", "Age_Group"]

/-- The `Age_Group` field of a row's CSV record: the bucket label, or the
empty field for an unbucketed age. -/
def ageGroupCell : Option String → Cell
  | none => .na
  | some s => .strCell s

/-- One row's CSV record, fields in schema order. -/
def rowToCells (r : Row) : List Cell :=
  [.intCell r.age, .strCell r.gender, .strCell r.operatingSystem,
   .strCell r.deviceModel, .ratCell r.screenOnTime,
   .ratCell r.appUsageTime, .ratCell r.batteryDrain,
   .ratCell r.dataUsage, .intCell r.numberOfApps,
   .intCell r.userBehaviorClass, ageGroupCell r.ageGroup]

/-- `filtered_df.to_csv(index=False)` (line 323): the header row followed
by one record per filtered row, no index column. -/
def to_csv (fd : List Row) : List String × List (List Cell) :=
  (csvHeader, fd.map rowToCells)

/-- Parse one CSV record back into a row; fails on any record not laid
out per the schema. -/
def cellsToRow : List Cell → Option Row
  | [.intCell a, .strCell g, .strCell o, .strCell d, .ratCell st,
     .ratCell ap, .ratCell bd, .ratCell du, .intCell n, .intCell c, agc] =>
      match agc with
      | .na => some { age := a, gender := g, operatingSystem := o,
                      deviceModel := d, screenOnTime := st,
                      appUsageTime := ap, batteryDrain := bd,
                      dataUsage := du, numberOfApps := n,
                      userBehaviorClass := c, ageGroup := none }
      | .strCell ag => some { age := a, gender := g, operatingSystem := o,
                              deviceModel := d, screenOnTime := st,
                              appUsageTime := ap, batteryDrain := bd,
                              dataUsage := du, numberOfApps := n,
                              userBehaviorClass := c, ageGroup := some ag }
      | _ => none
  | _ => none

/-- Re-parse an exported CSV: check the header, then parse every record. -/
def from_csv (csv : List String × List (List Cell)) : Option (List Row) :=
  if csv.1 = csvHeader then csv.2.mapM cellsToRow else none

/-- `Series.mean()`: sum over count. -/
def mean (xs : List ℚ) : ℚ := xs.sum / (xs.length : ℚ)

/-- The (Age Group, Gender) keys present in the filtered view; pandas
`groupby` drops rows whose `Age_Group` is `NaN` from the keys. -/
def demoGroups (fd : List Row) : List (String × String) :=
  (fd.filterMap (fun r => r.ageGroup.map (fun a => (a, r.gender)))).dedup

/-- `screen_by_demo` (line 178): mean Screen On Time per (Age Group,
Gender) pair present in the filtered view. -/
def screen_by_demo (fd : List Row) : List ((String × String) × ℚ) :=
  (demoGroups fd).map (fun k =>
    (k, mean ((fd.filter (fun r =>
          r.ageGroup == some k.1 && r.gender == k.2)).map
        (fun r => r.screenOnTime))))

/-- `device_usage` (line 231): mean Screen On Time per Device Model,
sorted ascending by the mean (`sort_values(ascending=True)`). -/
def device_usage (fd : List Row) : List (String × ℚ) :=
  ((fd.map (fun r => r.deviceModel)).dedup.map (fun m =>
      (m, mean ((fd.filter (fun r => r.deviceModel == m)).map
          (fun r => r.screenOnTime))))).mergeSort
    (fun a b => decide (a.2 ≤ b.2))

/-- The metric cards of the Key Metrics row (lines 114-145). -/
structure Metrics where
  avg_screen_time : ℚ
  avg_app_usage : ℚ
  avg_battery : ℚ
  heavyUsers : Nat
  heavyPercent : ℚ
deriving DecidableEq, Repr

/-- The aggregation pass the dashboard runs on a non-empty filtered view. -/
def computeMetrics (fd : List Row) : Metrics :=
  { avg_screen_time := mean (fd.map (fun r => r.screenOnTime)),
    avg_app_usage := mean (fd.map (fun r => r.appUsageTime)),
    avg_battery := mean (fd.map (fun r => r.batteryDrain)),
    heavyUsers := heavy_users fd,
    heavyPercent := heavy_percent fd }

/-- How one top-to-bottom run of the script ends: `st.stop()` after the
missing-file error, `st.stop()` after the empty-filter warning, or a full
render with metrics and the CSV export. -/
inductive DashOutcome where
  | fileMissing
  | emptyResult
  | rendered : Metrics → List String × List (List Cell) → DashOutcome
deriving DecidableEq, Repr

/-- One top-to-bottom execution of the script for one interaction:
`load_data` with its `FileNotFoundError` branch (lines 42-54, `none`
models the missing file), the filter block (lines 86-98), the empty-view
guard (lines 105-107), then metrics and the CSV download. -/
def run_dashboard (file : Option (List RawRow)) (ageLo ageHi : Int)
    (selGender selOs selDevice : String) : DashOutcome :=
  match file with
  | none => .fileMissing
  | some raws =>
      let df := load_data raws
      let fd := filtered_df df ageLo ageHi selGender selOs selDevice
      if fd.length = 0 then .emptyResult
      else .rendered (computeMetrics fd) (to_csv fd)

/-- A concrete raw row used by the concrete-input witnesses. -/
def sampleRaw (a : Int) (s : ℚ) : RawRow :=
  { age := a, gender := "Male", operatingSystem := "Android",
    deviceModel := "Pixel", screenOnTime := s, appUsageTime := 300,
    batteryDrain := 1500, dataUsage := 900, numberOfApps := 40,
    userBehaviorClass := 3 }

/-- The loaded form of `sampleRaw`. -/
def sampleRow (a : Int) (s : ℚ) : Row :=
  { toRawRow := sampleRaw a s, ageGroup := ageGroupOf a }

theorem filtered_df_eq_filter (df : List Row) (ageLo ageHi : Int)
    (selGender selOs selDevice : String) :
    filtered_df df ageLo ageHi selGender selOs selDevice
      = df.filter (rowPred ageLo ageHi selGender selOs selDevice) := by
  unfold filtered_df
  split_ifs with h1 h2 h3 h4 h5 h6 h7 <;>
    simp only [List.filter_filter] <;>
    refine List.filter_congr (fun r _ => ?_) <;>
    rw [Bool.eq_iff_iff] <;>
    simp_all [rowPred] <;>
    tauto

/-- C1: the filtered view contains exactly the rows of the source table
satisfying the age range inclusively and each categorical selector either
set to the wildcard `'All'` or matched exactly, conjunctively. -/
theorem filtered_df_spec (df : List Row) (ageLo ageHi : Int)
    (selGender selOs selDevice : String) :
    filtered_df df ageLo ageHi selGender selOs selDevice
      = df.filter (fun r =>
          decide (ageLo ≤ r.age ∧ r.age ≤ ageHi ∧
            (selGender = "All" ∨ r.gender = selGender) ∧
            (selOs = "All" ∨ r.operatingSystem = selOs) ∧
            (selDevice = "All" ∨ r.deviceModel = selDevice))) := by
  rw [filtered_df_eq_filter]
  refine List.filter_congr (fun r _ => ?_)
  rw [Bool.eq_iff_iff]
  simp [rowPred]
  tauto

theorem ageGroupOf_eq_none (b : Int) (hb : b < 18 ∨ 59 < b) :
    ageGroupOf b = none := by
  unfold ageGroupOf
  split_ifs <;> first | rfl | (exfalso; omega)

/-- C2: ages 18-59 always get a bucket; 25 and 26, 35 and 36, 45 and 46
fall on the advertised sides of the bin edges; ages outside [18, 59] get
no bucket. -/
theorem ageGroupOf_spec (a : Int) (h1 : 18 ≤ a) (h2 : a ≤ 59) :
    (ageGroupOf a).isSome
    ∧ ageGroupOf 25 = some "18-25" ∧ ageGroupOf 26 = some "26-35"
    ∧ ageGroupOf 35 = some "26-35" ∧ ageGroupOf 36 = some "36-45"
    ∧ ageGroupOf 45 = some "36-45" ∧ ageGroupOf 46 = some "46-59"
    ∧ ∀ b : Int, b < 18 ∨ 59 < b → ageGroupOf b = none := by
  refine ⟨?_, by decide, by decide, by decide, by decide, by decide,
          by decide, ageGroupOf_eq_none⟩
  unfold ageGroupOf
  split_ifs <;> first | rfl | (exfalso; omega)

/-- Witness for C2 at the concrete age 20. -/
theorem ageGroupOf_spec_witness :
    (ageGroupOf 20).isSome
    ∧ ageGroupOf 25 = some "18-25" ∧ ageGroupOf 26 = some "26-35"
    ∧ ageGroupOf 35 = some "26-35" ∧ ageGroupOf 36 = some "36-45"
    ∧ ageGroupOf 45 = some "36-45" ∧ ageGroupOf 46 = some "46-59"
    ∧ ∀ b : Int, b < 18 ∨ 59 < b → ageGroupOf b = none :=
  ageGroupOf_spec 20 (by decide) (by decide)

theorem applyConstraints_eq_filter (cs : List FilterConstraint)
    (df : List Row) :
    applyConstraints cs df
      = df.filter (fun r => cs.all (fun c => constraintPred c r)) := by
  induction cs generalizing df with
  | nil => simp [applyConstraints]
  | cons c cs ih =>
      show applyConstraints cs (df.filter (constraintPred c)) = _
      rw [ih, List.filter_filter]
      refine List.filter_congr (fun r _ => ?_)
      simp [Bool.and_comm]

theorem all_eq_of_perm {cs cs' : List FilterConstraint}
    (h : cs.Perm cs') (r : Row) :
    cs.all (fun c => constraintPred c r)
      = cs'.all (fun c => constraintPred c r) := by
  rw [Bool.eq_iff_iff, List.all_eq_true, List.all_eq_true]
  exact ⟨fun hall c hc => hall c (h.mem_iff.mpr hc),
         fun hall c hc => hall c (h.mem_iff.mp hc)⟩

/-- C7: the filter pipeline is order-independent — applying the four
widget constraints in any permutation produces exactly the filtered view
the script computes in its fixed order. -/
theorem filtered_df_perm_invariant (df : List Row) (ageLo ageHi : Int)
    (selGender selOs selDevice : String) (cs : List FilterConstraint)
    (h : cs.Perm [.ageRange ageLo ageHi, .genderSel selGender,
                  .osSel selOs, .deviceSel selDevice]) :
    applyConstraints cs df
      = filtered_df df ageLo ageHi selGender selOs selDevice := by
  rw [applyConstraints_eq_filter, filtered_df_eq_filter]
  refine List.filter_congr (fun r _ => ?_)
  rw [all_eq_of_perm h r, Bool.eq_iff_iff]
  simp [constraintPred, rowPred]
  tauto

/-- Witness for C7: a reversed constraint order on a one-row table. -/
theorem filtered_df_perm_invariant_witness :
    applyConstraints
        [.deviceSel "All", .osSel "All", .genderSel "All",
         .ageRange 18 59] [sampleRow 30 5]
      = filtered_df [sampleRow 30 5] 18 59 "All" "All" "All" :=
  filtered_df_perm_invariant [sampleRow 30 5] 18 59 "All" "All" "All" _
    (by decide)

/-- C8: the filtered view never has more rows than its source, and
prepending one more constraint to a constraint list never increases the
number of matching rows. -/
theorem filtered_df_length_mono (df : List Row) (ageLo ageHi : Int)
    (selGender selOs selDevice : String) (c : FilterConstraint)
    (cs : List FilterConstraint) :
    (filtered_df df ageLo ageHi selGender selOs selDevice).length
        ≤ df.length
    ∧ (applyConstraints (c :: cs) df).length
        ≤ (applyConstraints cs df).length := by
  constructor
  · rw [filtered_df_eq_filter]
    exact List.length_filter_le _ df
  · rw [applyConstraints_eq_filter, applyConstraints_eq_filter]
    have hsplit :
        df.filter (fun r => (c :: cs).all (fun k => constraintPred k r))
          = (df.filter
              (fun r => cs.all (fun k => constraintPred k r))).filter
              (constraintPred c) := by
      rw [List.filter_filter]
      refine List.filter_congr (fun r _ => ?_)
      simp [Bool.and_comm]
    rw [hsplit]
    exact List.length_filter_le _ _

/-- C3: on a non-empty filtered view the heavy-user percentage times the
filtered row count equals 100 times the number of filtered rows with
Screen On Time at least 8 — the denominator is the filtered count, not
the source table's count, and a row exactly at 8 hours counts as heavy. -/
theorem heavy_percent_spec (df : List Row) (ageLo ageHi : Int)
    (selGender selOs selDevice : String)
    (h : filtered_df df ageLo ageHi selGender selOs selDevice ≠ []) :
    heavy_percent (filtered_df df ageLo ageHi selGender selOs selDevice)
        * ((filtered_df df ageLo ageHi selGender selOs
              selDevice).length : ℚ)
      = ((filtered_df df ageLo ageHi selGender selOs selDevice).countP
            (fun r => decide ((8 : ℚ) ≤ r.screenOnTime)) : ℚ) * 100
    ∧ ∀ r ∈ filtered_df df ageLo ageHi selGender selOs selDevice,
        r.screenOnTime = 8 →
        r ∈ (filtered_df df ageLo ageHi selGender selOs selDevice).filter
              (fun r => decide ((8 : ℚ) ≤ r.screenOnTime)) := by
  set fd := filtered_df df ageLo ageHi selGender selOs selDevice with hfd
  have hlen : (fd.length : ℚ) ≠ 0 := by
    simpa [Rat.natCast_eq_zero] using
      fun h0 => h (List.length_eq_zero.mp h0)
  constructor
  · rw [heavy_percent, List.countP_eq_length_filter, heavy_users]
    field_simp
  · intro r hr h8
    rw [List.mem_filter]
    exact ⟨hr, by simp [h8]⟩

/-- Witness for C3: singleton view with Screen On Time exactly 8. -/
theorem heavy_percent_spec_witness :
    heavy_percent (filtered_df [sampleRow 30 8] 18 59 "All" "All" "All")
        * ((filtered_df [sampleRow 30 8] 18 59 "All" "All"
              "All").length : ℚ)
      = ((filtered_df [sampleRow 30 8] 18 59 "All" "All" "All").countP
            (fun r => decide ((8 : ℚ) ≤ r.screenOnTime)) : ℚ) * 100
    ∧ ∀ r ∈ filtered_df [sampleRow 30 8] 18 59 "All" "All" "All",
        r.screenOnTime = 8 →
        r ∈ (filtered_df [sampleRow 30 8] 18 59 "All" "All" "All").filter
              (fun r => decide ((8 : ℚ) ≤ r.screenOnTime)) :=
  heavy_percent_spec [sampleRow 30 8] 18 59 "All" "All" "All" (by decide)

theorem cellsToRow_rowToCells (r : Row) :
    cellsToRow (rowToCells r) = some r := by
  obtain ⟨⟨a, g, o, d, st, ap, bd, du, n, c⟩, ag⟩ := r
  cases ag <;> rfl

theorem mapM_cellsToRow (fd : List Row) :
    (fd.map rowToCells).mapM cellsToRow = some fd := by
  induction fd with
  | nil => rfl
  | cons r fd ih =>
      rw [List.map_cons, List.mapM_cons, cellsToRow_rowToCells, ih]
      rfl

/-- C6: the CSV export of any filtered view carries the full schema
(including the derived `Age_Group` column) in its fixed order, one record
per row, and re-parsing it reproduces the filtered view exactly. -/
theorem to_csv_round_trip (fd : List Row) :
    (to_csv fd).1 = csvHeader
    ∧ (to_csv fd).2.length = fd.length
    ∧ "Age_Group" ∈ (to_csv fd).1
    ∧ from_csv (to_csv fd) = some fd := by
  refine ⟨rfl, by simp [to_csv], by simp [to_csv, csvHeader], ?_⟩
  rw [from_csv]
  simp only [to_csv, if_pos rfl]
  exact mapM_cellsToRow fd

/-- C5: with the source CSV absent, the run reports the file-not-found
outcome and never reaches a render — no table, metrics, or export is
exposed. A present file never yields that outcome. -/
theorem run_dashboard_file_missing (ageLo ageHi : Int)
    (selGender selOs selDevice : String) :
    run_dashboard none ageLo ageHi selGender selOs selDevice
        = DashOutcome.fileMissing
    ∧ (∀ m csv, run_dashboard none ageLo ageHi selGender selOs selDevice
        ≠ DashOutcome.rendered m csv)
    ∧ ∀ raws,
        run_dashboard (some raws) ageLo ageHi selGender selOs selDevice
          ≠ DashOutcome.fileMissing := by
  refine ⟨rfl, fun m csv => by simp [run_dashboard], fun raws => ?_⟩
  rw [run_dashboard]
  split_ifs <;> simp

/-- C4: when the filter parameters match no rows, the run stops at the
warning — no metrics and no export are computed, so no division by the
zero row count happens. -/
theorem run_dashboard_empty_result (raws : List RawRow)
    (ageLo ageHi : Int) (selGender selOs selDevice : String)
    (h : filtered_df (load_data raws) ageLo ageHi selGender selOs
          selDevice = []) :
    run_dashboard (some raws) ageLo ageHi selGender selOs selDevice
        = DashOutcome.emptyResult
    ∧ ∀ m csv,
        run_dashboard (some raws) ageLo ageHi selGender selOs selDevice
          ≠ DashOutcome.rendered m csv := by
  rw [run_dashboard]
  simp [h]

/-- Witness for C4: a one-row table and an age range matching nothing. -/
theorem run_dashboard_empty_result_witness :
    run_dashboard (some [sampleRaw 30 5]) 40 45 "All" "All" "All"
        = DashOutcome.emptyResult
    ∧ ∀ m csv,
        run_dashboard (some [sampleRaw 30 5]) 40 45 "All" "All" "All"
          ≠ DashOutcome.rendered m csv :=
  run_dashboard_empty_result [sampleRaw 30 5] 40 45 "All" "All" "All"
    (by decide)

/-- C9: every (Age Group, Gender) value in the grouped output is the
arithmetic mean of that group's Screen On Time values (stated as value
times group size equals group sum), and the per-device means are listed
in ascending order of mean. -/
theorem screen_by_demo_spec (fd : List Row) (k : String × String) (v : ℚ)
    (h : (k, v) ∈ screen_by_demo fd) :
    v * ((fd.filter (fun r =>
            r.ageGroup == some k.1 && r.gender == k.2)).length : ℚ)
        = ((fd.filter (fun r =>
            r.ageGroup == some k.1 && r.gender == k.2)).map
          (fun r => r.screenOnTime)).sum
    ∧ List.Pairwise (fun a b => a.2 ≤ b.2) (device_usage fd) := by
  constructor
  · rw [screen_by_demo] at h
    obtain ⟨k0, hk0, heq⟩ := List.mem_map.mp h
    injection heq with hk hv
    subst hk
    subst hv
    rw [demoGroups, List.mem_dedup] at hk0
    obtain ⟨r, hr, hsome⟩ := List.mem_filterMap.mp hk0
    obtain ⟨a, hag, hak⟩ := Option.map_eq_some'.mp hsome
    have hrg : r ∈ fd.filter (fun r =>
        r.ageGroup == some k0.1 && r.gender == k0.2) := by
      rw [List.mem_filter]
      refine ⟨hr, ?_⟩
      rw [← hak]
      simp [hag]
    have hlen : (((fd.filter (fun r =>
        r.ageGroup == some k0.1 && r.gender == k0.2)).length : ℚ)) ≠ 0 :=
      Nat.cast_ne_zero.mpr
        (Nat.pos_iff_ne_zero.mp (List.length_pos_of_mem hrg))
    rw [mean, List.length_map]
    exact div_mul_cancel₀ _ hlen
  · rw [device_usage]
    have hp := @List.sorted_mergeSort (String × ℚ)
      (fun a b => decide (a.2 ≤ b.2))
      (fun a b c h1 h2 => by
        simp only [decide_eq_true_eq] at h1 h2 ⊢
        exact le_trans h1 h2)
      (fun a b => by
        simp only [Bool.or_eq_true, decide_eq_true_eq]
        exact le_total a.2 b.2)
      ((fd.map (fun r => r.deviceModel)).dedup.map (fun m =>
        (m, mean ((fd.filter (fun r => r.deviceModel == m)).map
            (fun r => r.screenOnTime)))))
    exact hp.imp (fun hab => by simpa using hab)

/-- Witness for C9: the spec's example — two (18-25, Male) rows with
screens 4 and 6 give grouped value 5, and 5 times 2 equals their sum. -/
theorem screen_by_demo_spec_witness :
    (5 : ℚ) * (([sampleRow 20 4, sampleRow 22 6].filter (fun r =>
            r.ageGroup == some ("18-25", "Male").1 &&
            r.gender == ("18-25", "Male").2)).length : ℚ)
        = (([sampleRow 20 4, sampleRow 22 6].filter (fun r =>
            r.ageGroup == some ("18-25", "Male").1 &&
            r.gender == ("18-25", "Male").2)).map
          (fun r => r.screenOnTime)).sum
    ∧ List.Pairwise (fun a b => a.2 ≤ b.2)
        (device_usage [sampleRow 20 4, sampleRow 22 6]) := by
  have hgroups : screen_by_demo [sampleRow 20 4, sampleRow 22 6]
      = [(("18-25", "Male"), (5 : ℚ))] := by
    simp [screen_by_demo, demoGroups, sampleRow, sampleRaw, ageGroupOf,
          mean]
    norm_num
  exact screen_by_demo_spec [sampleRow 20 4, sampleRow 22 6]
    ("18-25", "Male") 5 (by rw [hgroups]; exact List.mem_singleton.mpr rfl)

/-- C10: a row whose age falls outside every bucket still survives
loading (the table keeps its full length), carries an absent Age Group,
is filtered by exactly the same predicate as any other row, and appears
in the CSV export with the empty Age Group field. -/
theorem out_of_range_row_kept (raws : List RawRow) (r : Row)
    (hm : r ∈ load_data raws) (hout : r.age ≤ 17 ∨ 59 < r.age) :
    r.ageGroup = none
    ∧ (load_data raws).length = raws.length
    ∧ (∀ ageLo ageHi selGender selOs selDevice,
        r ∈ filtered_df (load_data raws) ageLo ageHi selGender selOs
              selDevice
          ↔ rowPred ageLo ageHi selGender selOs selDevice r = true)
    ∧ rowToCells r ∈ (to_csv (load_data raws)).2
    ∧ (rowToCells r).getLast? = some Cell.na := by
  have hnone : r.ageGroup = none := by
    obtain ⟨raw, _, hr⟩ := List.mem_map.mp hm
    have hage : r.age = raw.age := by rw [← hr]
    have hgr : r.ageGroup = ageGroupOf raw.age := by rw [← hr]
    rw [hgr, ageGroupOf_eq_none]
    omega
  refine ⟨hnone, by simp [load_data], fun ageLo ageHi g o d => ?_, ?_, ?_⟩
  · rw [filtered_df_eq_filter, List.mem_filter]
    exact ⟨fun hx => hx.2, fun hx => ⟨hm, hx⟩⟩
  · rw [to_csv]
    exact List.mem_map_of_mem rowToCells hm
  · rw [rowToCells, hnone]
    rfl

/-- Witness for C10 at a one-row table with age 70. -/
theorem out_of_range_row_kept_witness :
    (sampleRow 70 5).ageGroup = none
    ∧ (load_data [sampleRaw 70 5]).length = [sampleRaw 70 5].length
    ∧ (∀ ageLo ageHi selGender selOs selDevice,
        sampleRow 70 5 ∈ filtered_df (load_data [sampleRaw 70 5]) ageLo
              ageHi selGender selOs selDevice
          ↔ rowPred ageLo ageHi selGender selOs selDevice
              (sampleRow 70 5) = true)
    ∧ rowToCells (sampleRow 70 5) ∈ (to_csv (load_data [sampleRaw 70 5])).2
    ∧ (rowToCells (sampleRow 70 5)).getLast? = some Cell.na :=
  out_of_range_row_kept [sampleRaw 70 5] (sampleRow 70 5) (by decide)
    (by decide)

end MobileDash
